import Mathlib

/-!
Shallow embedding of the compliance rules of `src/streamlit_app.py`
(functions `parse_reps`, `reps_meet_prescription`, `compliance_check`),
and proofs of the specification claims about them.

Python strings are modelled as Lean `String`, Python `int` as Lean `Int`,
a Python function that may raise inside a `try` as an `Option`-returning
function.  The Python string primitives used by the code
(`str.split(sep)`, `str.strip()`, `str.lower()`, `str.startswith`,
`c in s`, `int(s)`, `l[:n]`) are modelled by structurally recursive
functions over the character list, so that every definition evaluates by
`decide`.  Unicode-only divergences (non-ASCII digits accepted by
Python's `int`, non-ASCII whitespace stripped by `str.strip`, non-ASCII
case mapping in `str.lower`) are outside the model; all the strings the
rules compare against are ASCII.
-/

namespace MyWorkOut

/-- The whitespace characters stripped by Python's `str.strip()`
(ASCII portion). -/
def isPySpace (c : Char) : Bool :=
  c = ' ' ∨ c = '\t' ∨ c = '\n' ∨ c = '\r' ∨ c = '\x0b' ∨ c = '\x0c'

/-- Python `s.strip()` on the character list: drop whitespace at both
ends. -/
def stripChars (l : List Char) : List Char :=
  ((l.dropWhile isPySpace).reverse.dropWhile isPySpace).reverse

/-- Python `s.strip()`. -/
def pyStrip (s : String) : String := ⟨stripChars s.data⟩

/-- Python `s.split(sep)` for a one-character separator: split on every
occurrence, keeping empty pieces; `"".split(sep) == [""]`. -/
def splitOnChar (sep : Char) : List Char → List (List Char)
  | [] => [[]]
  | c :: cs =>
    if c = sep then
      [] :: splitOnChar sep cs
    else
      match splitOnChar sep cs with
      | [] => [[c]]
      | g :: gs => (c :: g) :: gs

/-- Python `s.split(sep)` for a one-character separator. -/
def pySplit (s : String) (sep : Char) : List String :=
  (splitOnChar sep s.data).map (fun l => ⟨l⟩)

/-- Python `sep in s` for a one-character `sep`. -/
def pyContains (s : String) (c : Char) : Bool := s.data.contains c

/-- Python `s.lower()` (ASCII case mapping). -/
def pyLower (s : String) : String := ⟨s.data.map Char.toLower⟩

/-- Python `s.startswith(pre)`. -/
def pyStartsWith (s pre : String) : Bool := pre.data.isPrefixOf s.data

/-- Digit-run part of Python's `int()` literal grammar: one or more ASCII
digits, single underscores allowed only between digits.  `acc` is the
value so far, `prevDigit` whether the previous character was a digit. -/
def pyIntDigits : List Char → Nat → Bool → Option Nat
  | [], acc, prevDigit => if prevDigit then some acc else none
  | c :: cs, acc, prevDigit =>
    if c.isDigit then
      pyIntDigits cs (acc * 10 + (c.toNat - 48)) true
    else if c = '_' then
      if prevDigit then pyIntDigits cs acc false else none
    else
      none

/-- Python `int(s)` on a string: strip surrounding whitespace, optional
sign, digit run.  Returns `none` where Python raises `ValueError`. -/
def pyInt? (s : String) : Option Int :=
  match stripChars s.data with
  | '+' :: rest => (pyIntDigits rest 0 false).map (fun n => (n : Int))
  | '-' :: rest => (pyIntDigits rest 0 false).map (fun n => -(n : Int))
  | rest => (pyIntDigits rest 0 false).map (fun n => (n : Int))

/-- `parse_reps` (line 176): split on commas, strip each piece, drop
blank pieces, parse each remaining piece as an integer.  `none` models
the `ValueError` raised by `int` on a malformed piece. -/
def parse_reps (reps_text : String) : Option (List Int) :=
  let parts := ((pySplit reps_text ',').map pyStrip).filter (fun p => p ≠ "")
  parts.mapM pyInt?

/-- Python slicing `l[:n]` for an `int` index `n`, including the negative
case (count from the end, clamped at zero). -/
def pySliceTo {α : Type} (l : List α) (n : Int) : List α :=
  if n < 0 then l.take (((l.length : Int) + n).toNat) else l.take n.toNat

/-- `reps_meet_prescription` (lines 180-199).  The `try/except` wrapping
the whole body maps every parse failure (and the tuple-unpack failure
when the prescription has more than one dash) to
`(false, "Could not parse reps_by_set")`. -/
def reps_meet_prescription (sets_prescribed : Int) (reps_prescribed : String)
    (reps_by_set : String) : Bool × String :=
  match parse_reps reps_by_set with
  | none => (false, "Could not parse reps_by_set")
  | some parsed =>
    let reps_list := pySliceTo parsed sets_prescribed
    if (reps_list.length : Int) < sets_prescribed then
      (false, "Fewer sets logged than prescribed")
    else
      let rp := pyStrip reps_prescribed
      if pyContains rp '-' then
        match pySplit rp '-' with
        | [lo, _hi] =>
          match pyInt? lo with
          | none => (false, "Could not parse reps_by_set")
          | some loN =>
            if reps_list.any (fun r => decide (r < loN)) then
              (false, "Some sets below minimum rep target")
            else
              (true, "")
        | _ => (false, "Could not parse reps_by_set")
      else
        match pyInt? rp with
        | none => (false, "Could not parse reps_by_set")
        | some target =>
          if reps_list.any (fun r => decide (r < target)) then
            (false, "Some sets below prescribed reps")
          else
            (true, "")

/-- `compliance_check` (lines 201-231): three short-circuiting hard
stops, then soft warnings accumulated in a fixed order, verdict WARN iff
any reason accumulated, PASS otherwise. -/
def compliance_check (equipment : String) (sets_prescribed : Int)
    (reps_prescribed : String) (reps_by_set : String) (pain : String)
    (form : String) (set_quality : String) (barbell_same_weight : Bool) :
    String × List String :=
  if pain = "Moderate" ∨ pain = "Severe" then
    ("FAIL", ["Pain is Moderate/Severe"])
  else if pyLower equipment = "barbell" ∧ barbell_same_weight = false then
    ("FAIL", ["Barbell working weight changed across sets"])
  else if pyStartsWith set_quality "Red" then
    ("FAIL", ["Set quality marked Red"])
  else
    let reasons1 := if form = "Bad" then ["Form marked Bad"] else []
    let reasons2 := reasons1 ++
      (if pyStartsWith set_quality "Yellow" then ["Set quality marked Yellow"] else [])
    let rm := reps_meet_prescription sets_prescribed reps_prescribed reps_by_set
    let reasons3 := reasons2 ++ (if rm.1 then [] else [rm.2])
    if reasons3 ≠ [] then ("WARN", reasons3) else ("PASS", reasons3)

end MyWorkOut

namespace MyWorkOut

/-- The length of `l[:n]` is at least `n` exactly when `l` has at least
`n` elements. -/
lemma sliceTo_length_lt_iff (l : List Int) (n : Int) :
    ((pySliceTo l n).length : Int) < n ↔ (l.length : Int) < n := by
  unfold pySliceTo
  split <;> (simp only [List.length_take]; omega)

/-- With enough parsed sets, the fewer-sets guard is off. -/
lemma sliceTo_guard_off (l : List Int) (n : Int) (h : n ≤ (l.length : Int)) :
    ¬ ((pySliceTo l n).length : Int) < n := by
  rw [sliceTo_length_lt_iff]; omega

/-- Unfolding of the matcher on a parse failure. -/
lemma rmp_of_parse_fail (n : Int) (rp rbs : String)
    (h : parse_reps rbs = none) :
    reps_meet_prescription n rp rbs = (false, "Could not parse reps_by_set") := by
  unfold reps_meet_prescription
  rw [h]

/-- Unfolding of the matcher when too few sets were logged. -/
lemma rmp_of_fewer (n : Int) (rp rbs : String) (l : List Int)
    (hp : parse_reps rbs = some l) (hlt : (l.length : Int) < n) :
    reps_meet_prescription n rp rbs = (false, "Fewer sets logged than prescribed") := by
  unfold reps_meet_prescription
  rw [hp]
  simp [(sliceTo_length_lt_iff l n).2 hlt]

/-- Unfolding of the matcher in the range branch. -/
lemma rmp_of_range (n : Int) (rp rbs loS hiS : String) (lo : Int) (l : List Int)
    (hp : parse_reps rbs = some l)
    (hg : ¬ ((pySliceTo l n).length : Int) < n)
    (hc : pyContains (pyStrip rp) '-' = true)
    (hs : pySplit (pyStrip rp) '-' = [loS, hiS])
    (hlo : pyInt? loS = some lo) :
    reps_meet_prescription n rp rbs =
      if (pySliceTo l n).any (fun r => decide (r < lo)) then
        (false, "Some sets below minimum rep target")
      else (true, "") := by
  unfold reps_meet_prescription
  rw [hp]
  simp [hg, hc, hs, hlo]

/-- Unfolding of the matcher in the single-target branch. -/
lemma rmp_of_single (n : Int) (rp rbs : String) (target : Int) (l : List Int)
    (hp : parse_reps rbs = some l)
    (hg : ¬ ((pySliceTo l n).length : Int) < n)
    (hc : pyContains (pyStrip rp) '-' = false)
    (ht : pyInt? (pyStrip rp) = some target) :
    reps_meet_prescription n rp rbs =
      if (pySliceTo l n).any (fun r => decide (r < target)) then
        (false, "Some sets below prescribed reps")
      else (true, "") := by
  unfold reps_meet_prescription
  rw [hp]
  simp [hg, hc, ht]


/-- Unfolding of the matcher when the prescription has more than one dash
(tuple unpack raises). -/
lemma rmp_of_bad_split (n : Int) (rp rbs : String) (l : List Int)
    (hp : parse_reps rbs = some l)
    (hg : ¬ ((pySliceTo l n).length : Int) < n)
    (hc : pyContains (pyStrip rp) '-' = true)
    (hs : ∀ a b : String, pySplit (pyStrip rp) '-' ≠ [a, b]) :
    reps_meet_prescription n rp rbs = (false, "Could not parse reps_by_set") := by
  unfold reps_meet_prescription
  rw [hp]
  simp [hg, hc]

/-- Unfolding of the matcher when the low bound of a range fails to
parse. -/
lemma rmp_of_bad_lo (n : Int) (rp rbs loS hiS : String) (l : List Int)
    (hp : parse_reps rbs = some l)
    (hg : ¬ ((pySliceTo l n).length : Int) < n)
    (hc : pyContains (pyStrip rp) '-' = true)
    (hs : pySplit (pyStrip rp) '-' = [loS, hiS])
    (hlo : pyInt? loS = none) :
    reps_meet_prescription n rp rbs = (false, "Could not parse reps_by_set") := by
  unfold reps_meet_prescription
  rw [hp]
  simp [hg, hc, hs, hlo]

/-- Unfolding of the matcher when a dash-free prescription fails to
parse. -/
lemma rmp_of_bad_single (n : Int) (rp rbs : String) (l : List Int)
    (hp : parse_reps rbs = some l)
    (hg : ¬ ((pySliceTo l n).length : Int) < n)
    (hc : pyContains (pyStrip rp) '-' = false)
    (ht : pyInt? (pyStrip rp) = none) :
    reps_meet_prescription n rp rbs = (false, "Could not parse reps_by_set") := by
  unfold reps_meet_prescription
  rw [hp]
  simp [hg, hc, ht]

end MyWorkOut

namespace MyWorkOut

lemma rmp_result_shape (n : Int) (rp rbs : String) :
    reps_meet_prescription n rp rbs = (true, "") ∨
    ((reps_meet_prescription n rp rbs).1 = false ∧
      ((reps_meet_prescription n rp rbs).2 = "Could not parse reps_by_set" ∨
       (reps_meet_prescription n rp rbs).2 = "Fewer sets logged than prescribed" ∨
       (reps_meet_prescription n rp rbs).2 = "Some sets below minimum rep target" ∨
       (reps_meet_prescription n rp rbs).2 = "Some sets below prescribed reps")) := by
  unfold reps_meet_prescription
  dsimp only
  repeat' split
  all_goals simp


/-- When enough sets parsed, the matcher never reports fewer sets. -/
lemma rmp_snd_ne_fewer (n : Int) (rp rbs : String) (l : List Int)
    (hp : parse_reps rbs = some l)
    (hg : ¬ ((pySliceTo l n).length : Int) < n) :
    (reps_meet_prescription n rp rbs).2 ≠ "Fewer sets logged than prescribed" := by
  unfold reps_meet_prescription
  rw [hp]
  dsimp only
  simp only [hg, if_false]
  repeat' split
  all_goals simp


/-- C2 (counterexample): with `reps_prescribed = "8-12-15"` the claim's
hypotheses hold (the string contains a dash, the piece before the first
dash is "8" and parses to 8, `reps_by_set = "10"` parses to one entry of
value 10 which is not below 8), yet the matcher does not return
`(true, "")`: Python's two-name unpack of the three-piece split raises,
and the handler reports a parse failure. -/
theorem C2_counterexample :
    pyContains (pyStrip "8-12-15") '-' = true ∧
    (pySplit (pyStrip "8-12-15") '-').headD "" = "8" ∧
    pyInt? "8" = some 8 ∧
    parse_reps "10" = some [10] ∧
    ¬ (10 : Int) < 8 ∧
    reps_meet_prescription 1 "8-12-15" "10" = (false, "Could not parse reps_by_set") ∧
    reps_meet_prescription 1 "8-12-15" "10" ≠ (true, "") := by
  decide

/-- C2 (amended): when the stripped prescription contains a dash, splits
on dashes into exactly two pieces, and the piece before the dash parses
as an integer `lo`, and `reps_by_set` parses into at least
`sets_prescribed` entries, the matcher ignores the piece after the dash
entirely and fails with "Some sets below minimum rep target" exactly when
some truncated entry is strictly below `lo`, returning `(true, "")`
otherwise. -/
theorem C2_range_low_bound (n : Int) (rp rbs loS hiS : String) (lo : Int)
    (l : List Int)
    (hd : pyContains (pyStrip rp) '-' = true)
    (hs : pySplit (pyStrip rp) '-' = [loS, hiS])
    (hlo : pyInt? loS = some lo)
    (hp : parse_reps rbs = some l)
    (hn : n ≤ (l.length : Int)) :
    reps_meet_prescription n rp rbs =
      if (pySliceTo l n).any (fun r => decide (r < lo)) then
        (false, "Some sets below minimum rep target")
      else (true, "") :=
  rmp_of_range n rp rbs loS hiS lo l hp (sliceTo_guard_off l n hn) hd hs hlo

/-- C2 witness: "20,20,20,20,20" against "8-12" matches even though all
reps exceed the upper bound. -/
theorem C2_range_low_bound_witness :
    reps_meet_prescription 5 "8-12" "20,20,20,20,20" = (true, "") := by
  have h := C2_range_low_bound 5 "8-12" "20,20,20,20,20" "8" "12" 8
    [20, 20, 20, 20, 20] (by decide) (by decide) (by decide) (by decide)
    (by decide)
  rw [h]
  decide

/-- C4: whenever a parse step actually performed by the matcher fails (a
non-blank non-integer piece of `reps_by_set`; or, once the set count
passed, a dash-prescription that does not split into exactly two pieces
or whose low piece is not an integer, or a dash-free prescription that is
not an integer), the matcher returns a failed match with exactly the
reason "Could not parse reps_by_set". -/
theorem C4_parse_failure_fallback (n : Int) (rp rbs : String)
    (h : parse_reps rbs = none ∨
      ∃ l, parse_reps rbs = some l ∧ ¬ ((pySliceTo l n).length : Int) < n ∧
        ((pyContains (pyStrip rp) '-' = true ∧
           ((∀ a b : String, pySplit (pyStrip rp) '-' ≠ [a, b]) ∨
            ∃ loS hiS, pySplit (pyStrip rp) '-' = [loS, hiS] ∧
              pyInt? loS = none)) ∨
         (pyContains (pyStrip rp) '-' = false ∧
           pyInt? (pyStrip rp) = none))) :
    reps_meet_prescription n rp rbs = (false, "Could not parse reps_by_set") := by
  rcases h with h | ⟨l, hp, hg, ⟨hc, hbad | ⟨loS, hiS, hs, hlo⟩⟩ | ⟨hc, ht⟩⟩
  · exact rmp_of_parse_fail n rp rbs h
  · exact rmp_of_bad_split n rp rbs l hp hg hc hbad
  · exact rmp_of_bad_lo n rp rbs loS hiS l hp hg hc hs hlo
  · exact rmp_of_bad_single n rp rbs l hp hg hc ht

/-- C4 witness: a malformed rep list degrades to the parse-failure
reason. -/
theorem C4_parse_failure_fallback_witness :
    reps_meet_prescription 3 "8-12" "5,x" = (false, "Could not parse reps_by_set") :=
  C4_parse_failure_fallback 3 "8-12" "5,x" (Or.inl (by decide))

/-- C6: for a parseable `reps_by_set`, the matcher reports "Fewer sets
logged than prescribed" exactly when the parsed sequence has strictly
fewer than `sets_prescribed` entries (so exactly that many entries is
acceptable), and the result depends only on the truncation of the parsed
sequence to the first `sets_prescribed` entries, so extra logged sets
never affect it. -/
theorem C6_truncation (n : Int) (rp s1 s2 : String) (l1 l2 : List Int)
    (h1 : parse_reps s1 = some l1) (h2 : parse_reps s2 = some l2) :
    (reps_meet_prescription n rp s1 = (false, "Fewer sets logged than prescribed") ↔
      (l1.length : Int) < n) ∧
    (pySliceTo l1 n = pySliceTo l2 n →
      reps_meet_prescription n rp s1 = reps_meet_prescription n rp s2) := by
  constructor
  · constructor
    · intro hres
      by_contra hge
      have hg : ¬ ((pySliceTo l1 n).length : Int) < n :=
        fun hcon => hge ((sliceTo_length_lt_iff l1 n).1 hcon)
      exact rmp_snd_ne_fewer n rp s1 l1 h1 hg (congrArg Prod.snd hres)
    · exact rmp_of_fewer n rp s1 l1 h1
  · intro hsl
    unfold reps_meet_prescription
    rw [h1, h2]
    dsimp only
    rw [hsl]

/-- C6 witness: a third logged set beyond the two prescribed does not
change the result. -/
theorem C6_truncation_witness :
    reps_meet_prescription 2 "5" "3,9,9" = reps_meet_prescription 2 "5" "3,9" := by
  have h := C6_truncation 2 "5" "3,9,9" "3,9" [3, 9, 9] [3, 9]
    (by decide) (by decide)
  exact h.2 (by decide)

/-- C7: when the stripped prescription has no dash and parses as a single
integer target, and `reps_by_set` parses into at least `sets_prescribed`
entries, the matcher fails with "Some sets below prescribed reps" exactly
when some truncated entry is strictly below the target, returning
`(true, "")` otherwise. -/
theorem C7_single_target (n : Int) (rp rbs : String) (target : Int)
    (l : List Int)
    (hc : pyContains (pyStrip rp) '-' = false)
    (ht : pyInt? (pyStrip rp) = some target)
    (hp : parse_reps rbs = some l)
    (hn : n ≤ (l.length : Int)) :
    reps_meet_prescription n rp rbs =
      if (pySliceTo l n).any (fun r => decide (r < target)) then
        (false, "Some sets below prescribed reps")
      else (true, "") :=
  rmp_of_single n rp rbs target l hp (sliceTo_guard_off l n hn) hc ht

/-- C7 witness: "4,5,5,5,5" against target 5 fails with the
below-prescribed reason. -/
theorem C7_single_target_witness :
    reps_meet_prescription 5 "5" "4,5,5,5,5" = (false, "Some sets below prescribed reps") := by
  have h := C7_single_target 5 "5" "4,5,5,5,5" 5 [4, 5, 5, 5, 5]
    (by decide) (by decide) (by decide) (by decide)
  rw [h]
  decide

/-- C10: with zero prescribed sets the matcher never reports "Fewer sets
logged than prescribed", and whenever `reps_by_set` parses and the
prescription parses (dash-free integer, or a two-piece range whose low
piece parses), it returns `(true, "")` vacuously, whatever the logged
reps are. -/
theorem C10_zero_sets (rp rbs : String) :
    (reps_meet_prescription 0 rp rbs).2 ≠ "Fewer sets logged than prescribed" ∧
    ∀ l : List Int, parse_reps rbs = some l →
      ((pyContains (pyStrip rp) '-' = false ∧
         ∃ t, pyInt? (pyStrip rp) = some t) ∨
       (pyContains (pyStrip rp) '-' = true ∧
         ∃ loS hiS lo, pySplit (pyStrip rp) '-' = [loS, hiS] ∧
           pyInt? loS = some lo)) →
      reps_meet_prescription 0 rp rbs = (true, "") := by
  have hslice : ∀ l : List Int, pySliceTo l 0 = [] := by
    intro l
    simp [pySliceTo]
  constructor
  · cases hq : parse_reps rbs with
    | none =>
      rw [rmp_of_parse_fail 0 rp rbs hq]
      simp
    | some l =>
      have hg : ¬ ((pySliceTo l 0).length : Int) < 0 := by
        rw [hslice l]
        simp
      exact rmp_snd_ne_fewer 0 rp rbs l hq hg
  · intro l hp hcase
    have hg : ¬ ((pySliceTo l 0).length : Int) < 0 := by
      rw [hslice l]
      simp
    rcases hcase with ⟨hc, t, ht⟩ | ⟨hc, loS, hiS, lo, hs, hlo⟩
    · rw [rmp_of_single 0 rp rbs t l hp hg hc ht, hslice l]
      simp
    · rw [rmp_of_range 0 rp rbs loS hiS lo l hp hg hc hs hlo, hslice l]
      simp

/-- C10 witness: zero prescribed sets accept any logged reps. -/
theorem C10_zero_sets_witness :
    reps_meet_prescription 0 "5" "1,1" = (true, "") :=
  (C10_zero_sets "5" "1,1").2 [1, 1] (by decide)
    (Or.inl ⟨by decide, ⟨5, by decide⟩⟩)


/-- C1: whenever a hard stop fires, the verdict is FAIL with exactly one
reason, the reason of the first hard-stop rule triggered in the fixed
priority order pain, then barbell weight, then red quality; nothing after
the first triggered rule influences the output. -/
theorem C1_hard_stop_order (equipment : String) (sets_prescribed : Int)
    (reps_prescribed reps_by_set pain form set_quality : String)
    (bsw : Bool)
    (h : (pain = "Moderate" ∨ pain = "Severe") ∨
         (pyLower equipment = "barbell" ∧ bsw = false) ∨
         pyStartsWith set_quality "Red" = true) :
    compliance_check equipment sets_prescribed reps_prescribed reps_by_set
        pain form set_quality bsw =
      ("FAIL",
       [if pain = "Moderate" ∨ pain = "Severe" then
          "Pain is Moderate/Severe"
        else if pyLower equipment = "barbell" ∧ bsw = false then
          "Barbell working weight changed across sets"
        else "Set quality marked Red"]) := by
  unfold compliance_check
  split_ifs with h1 h2 h3 <;>
    first
    | rfl
    | exact absurd h (by tauto)

/-- C1 witness: with every hard stop triggered at once, only the pain
reason is reported. -/
theorem C1_hard_stop_order_witness :
    compliance_check "Barbell" 3 "5" "1,1,1" "Severe" "Bad" "Red (missed/ugly)" false =
      ("FAIL", ["Pain is Moderate/Severe"]) := by
  have h := C1_hard_stop_order "Barbell" 3 "5" "1,1,1" "Severe" "Bad"
    "Red (missed/ugly)" false (Or.inl (Or.inr rfl))
  rw [h]
  decide

/-- C3: on every input the verdict is one of PASS, WARN, FAIL; the checker
is a total function, so no input raises to the caller. -/
theorem C3_total_verdict (equipment : String) (sets_prescribed : Int)
    (reps_prescribed reps_by_set pain form set_quality : String)
    (bsw : Bool) :
    (compliance_check equipment sets_prescribed reps_prescribed reps_by_set
        pain form set_quality bsw).1 = "PASS" ∨
    (compliance_check equipment sets_prescribed reps_prescribed reps_by_set
        pain form set_quality bsw).1 = "WARN" ∨
    (compliance_check equipment sets_prescribed reps_prescribed reps_by_set
        pain form set_quality bsw).1 = "FAIL" := by
  unfold compliance_check
  dsimp only
  repeat' split
  all_goals simp

/-- C5: when no hard stop fires, the reasons are accumulated in the fixed
order bad form, yellow quality, rep-matcher reason, and the verdict is
WARN exactly when that list is non-empty, PASS otherwise. -/
theorem C5_soft_order (equipment : String) (sets_prescribed : Int)
    (reps_prescribed reps_by_set pain form set_quality : String)
    (bsw : Bool)
    (h1 : ¬ (pain = "Moderate" ∨ pain = "Severe"))
    (h2 : ¬ (pyLower equipment = "barbell" ∧ bsw = false))
    (h3 : ¬ pyStartsWith set_quality "Red" = true) :
    compliance_check equipment sets_prescribed reps_prescribed reps_by_set
        pain form set_quality bsw =
      (if ((if form = "Bad" then ["Form marked Bad"] else []) ++
           (if pyStartsWith set_quality "Yellow" = true then
              ["Set quality marked Yellow"] else []) ++
           (if (reps_meet_prescription sets_prescribed reps_prescribed
                  reps_by_set).1 = true then []
            else [(reps_meet_prescription sets_prescribed reps_prescribed
                     reps_by_set).2])) = [] then "PASS" else "WARN",
       (if form = "Bad" then ["Form marked Bad"] else []) ++
       (if pyStartsWith set_quality "Yellow" = true then
          ["Set quality marked Yellow"] else []) ++
       (if (reps_meet_prescription sets_prescribed reps_prescribed
              reps_by_set).1 = true then []
        else [(reps_meet_prescription sets_prescribed reps_prescribed
                 reps_by_set).2])) := by
  unfold compliance_check
  simp only [h1, h2, h3]
  split_ifs <;> simp_all

/-- C5 witness: the spec scenario with bad form and yellow quality warns
with those two reasons in order. -/
theorem C5_soft_order_witness :
    compliance_check "Dumbbell" 5 "5" "5,5,5,5,5" "None" "Bad" "Yellow (slowed)" true =
      ("WARN", ["Form marked Bad", "Set quality marked Yellow"]) := by
  have h := C5_soft_order "Dumbbell" 5 "5" "5,5,5,5,5" "None" "Bad"
    "Yellow (slowed)" true (by decide) (by decide) (by decide)
  rw [h]
  rfl

/-- C8: a PASS verdict carries no reasons, and a WARN verdict carries at
least one reason, none of which is a hard-stop reason string. -/
theorem C8_verdict_reasons (equipment : String) (sets_prescribed : Int)
    (reps_prescribed reps_by_set pain form set_quality : String)
    (bsw : Bool) :
    ((compliance_check equipment sets_prescribed reps_prescribed reps_by_set
        pain form set_quality bsw).1 = "PASS" →
      (compliance_check equipment sets_prescribed reps_prescribed reps_by_set
        pain form set_quality bsw).2 = []) ∧
    ((compliance_check equipment sets_prescribed reps_prescribed reps_by_set
        pain form set_quality bsw).1 = "WARN" →
      (compliance_check equipment sets_prescribed reps_prescribed reps_by_set
        pain form set_quality bsw).2 ≠ [] ∧
      ∀ r ∈ (compliance_check equipment sets_prescribed reps_prescribed
               reps_by_set pain form set_quality bsw).2,
        r ≠ "Pain is Moderate/Severe" ∧
        r ≠ "Barbell working weight changed across sets" ∧
        r ≠ "Set quality marked Red") := by
  by_cases hp1 : pain = "Moderate" ∨ pain = "Severe"
  · unfold compliance_check
    simp [hp1]
  by_cases hp2 : pyLower equipment = "barbell" ∧ bsw = false
  · unfold compliance_check
    simp [hp1, hp2]
  by_cases hp3 : pyStartsWith set_quality "Red" = true
  · unfold compliance_check
    simp [hp1, hp2, hp3]
  rcases rmp_result_shape sets_prescribed reps_prescribed reps_by_set with
    hsh | ⟨hf, hm | hm | hm | hm⟩
  · unfold compliance_check
    simp only [hp1, hp2, hp3, hsh]
    split_ifs <;> simp_all
  all_goals
    (unfold compliance_check;
     simp only [hp1, hp2, hp3, hf, hm];
     split_ifs <;> simp_all)

/-- C8 witness: a WARN verdict has a non-empty reasons list. -/
theorem C8_verdict_reasons_witness :
    (compliance_check "Dumbbell" 5 "5" "4,5,5,5,5" "None" "Good" "Green (clean)" true).2 ≠ [] := by
  have h := C8_verdict_reasons "Dumbbell" 5 "5" "4,5,5,5,5" "None" "Good"
    "Green (clean)" true
  exact (h.2 (by decide)).1

/-- C9: when the lowercased equipment is not "barbell", flipping
`barbell_same_weight` never changes the verdict or the reasons. -/
theorem C9_bsw_irrelevant (equipment : String) (sets_prescribed : Int)
    (reps_prescribed reps_by_set pain form set_quality : String)
    (b1 b2 : Bool)
    (h : pyLower equipment ≠ "barbell") :
    compliance_check equipment sets_prescribed reps_prescribed reps_by_set
        pain form set_quality b1 =
    compliance_check equipment sets_prescribed reps_prescribed reps_by_set
        pain form set_quality b2 := by
  unfold compliance_check
  simp [h]

/-- C9 witness: with dumbbell equipment the flag does not matter. -/
theorem C9_bsw_irrelevant_witness :
    compliance_check "Dumbbell" 5 "5" "5,5,5,5,5" "None" "Good" "Green (clean)" true =
    compliance_check "Dumbbell" 5 "5" "5,5,5,5,5" "None" "Good" "Green (clean)" false :=
  C9_bsw_irrelevant "Dumbbell" 5 "5" "5,5,5,5,5" "None" "Good"
    "Green (clean)" true false (by decide)

end MyWorkOut
